import Mathlib

/-!
Verification development for the pixelstats charge-stats reporter
(`pixelstats/ChargeStatsReporter.cpp`).

The C++ source is shallowly embedded below:

* `sscanf` calls are modelled by `runScan` over a token list mirroring the
  format string (`%d` / `%x` / `%f` directives, literal characters, and
  whitespace directives).  `runScan` returns the list of successfully
  assigned values, in order, stopping at the first matching failure -- the
  same information the C code uses (the assigned-field count and the
  written variables, including writes performed by scans that later fail).
  C `int` overflow is not modelled; no behaviour proved here depends on the
  numeric magnitude of a parsed field.
* the `tmp` slot arrays are modelled as functions `Nat -> Int` with
  pointwise update (`updA`), starting from all zeroes (`int tmp[n] = {0}`).
* `std::getline` line splitting is modelled by `getLines`.
* file reads are modelled as `Option String` (`none` = read failed), file
  truncation as a `Bool` success flag, the boot clock and the throttle
  member `log_event_time_secs_` as `Int` values.
* collaborators that live outside this source file
  (`WirelessChargeStats::TranslateSysModeToAtomValue`,
  `WirelessChargeStats::CalculateWirelessChargeStats`,
  `PcaChargeStats::CheckPcaContentsAndAck`,
  `WirelessChargeStats::CheckWirelessContentsAndAck`) are taken as
  parameters of the embedding.
-/

namespace ChargeStatsModel

/-! ## Character-level scanning (model of sscanf) -/

/-- C `isspace` characters. -/
def isWsChar (c : Char) : Bool :=
  c == ' ' || c == '\t' || c == '\n' || c == '\r' || c.toNat == 11 || c.toNat == 12

/-- Drop leading whitespace. -/
def dropWs : List Char → List Char
  | [] => []
  | c :: cs => if isWsChar c then dropWs cs else c :: cs

/-- Decimal digit value. -/
def decDigit (c : Char) : Option Nat :=
  if '0' ≤ c ∧ c ≤ '9' then some (c.toNat - 48) else none

/-- Hexadecimal digit value. -/
def hexDigit (c : Char) : Option Nat :=
  if '0' ≤ c ∧ c ≤ '9' then some (c.toNat - 48)
  else if 'a' ≤ c ∧ c ≤ 'f' then some (c.toNat - 87)
  else if 'A' ≤ c ∧ c ≤ 'F' then some (c.toNat - 55)
  else none

/-- Greedily consume digits; returns (value, digit count, rest). -/
def scanDigits (dv : Char → Option Nat) (base : Nat) :
    Nat → Nat → List Char → Nat × Nat × List Char
  | acc, cnt, [] => (acc, cnt, [])
  | acc, cnt, c :: cs =>
    match dv c with
    | some d => scanDigits dv base (acc * base + d) (cnt + 1) cs
    | none => (acc, cnt, c :: cs)

/-- Optional sign; returns (isNegative, rest). -/
def scanSign : List Char → Bool × List Char
  | '-' :: cs => (true, cs)
  | '+' :: cs => (false, cs)
  | cs => (false, cs)

/-- Model of a `%d` conversion: skip whitespace, optional sign, decimal
digits (at least one). -/
def scanIntTok (s : List Char) : Option (Int × List Char) :=
  let p := scanSign (dropWs s)
  let r := scanDigits decDigit 10 0 0 p.2
  if r.2.1 = 0 then none
  else some (if p.1 then -(r.1 : Int) else (r.1 : Int), r.2.2)

/-- Model of a `%x` conversion: skip whitespace, optional sign, optional
`0x`/`0X` marker (consumed only when a hex digit follows, as in `strtoul`),
hex digits. -/
def scanHexTok (s : List Char) : Option (Int × List Char) :=
  let p := scanSign (dropWs s)
  let s2 := match p.2 with
    | '0' :: 'x' :: rest => if (hexDigit (rest.headD ' ')).isSome then rest else p.2
    | '0' :: 'X' :: rest => if (hexDigit (rest.headD ' ')).isSome then rest else p.2
    | _ => p.2
  let r := scanDigits hexDigit 16 0 0 s2
  if r.2.1 = 0 then none
  else some (if p.1 then -(r.1 : Int) else (r.1 : Int), r.2.2)

/-- Optional exponent marker of a float literal (consumed only when at
least one exponent digit follows, as in `strtof`). -/
def scanExp (v : Rat) (s : List Char) : Rat × List Char :=
  match s with
  | e :: cs =>
    if e = 'e' ∨ e = 'E' then
      let p := scanSign cs
      let d := scanDigits decDigit 10 0 0 p.2
      if d.2.1 = 0 then (v, s)
      else (if p.1 then v / ((10 : Rat) ^ d.1) else v * ((10 : Rat) ^ d.1), d.2.2)
    else (v, s)
  | [] => (v, [])

/-- Model of a `%f` conversion: skip whitespace, optional sign, digits with
an optional fractional part (at least one digit overall), optional
exponent.  The value is kept exactly, as a rational; `inf`/`nan` literals
and hexadecimal float literals are not modelled (the tier logs drained
here never contain them). -/
def scanFloatTok (s : List Char) : Option (Rat × List Char) :=
  let p := scanSign (dropWs s)
  let ip := scanDigits decDigit 10 0 0 p.2
  match ip.2.2 with
  | '.' :: cs =>
    let fp := scanDigits decDigit 10 0 0 cs
    if ip.2.1 = 0 ∧ fp.2.1 = 0 then none
    else
      let mant : Rat := (ip.1 : Rat) + (fp.1 : Rat) / ((10 : Rat) ^ fp.2.1)
      some (scanExp (if p.1 then -mant else mant) fp.2.2)
  | _ =>
    if ip.2.1 = 0 then none
    else some (scanExp (if p.1 then -(ip.1 : Rat) else (ip.1 : Rat)) ip.2.2)

/-- One token of a scanf format string. -/
inductive FTok where
  | lit : Char → FTok
  | wsp : FTok
  | dInt : FTok
  | xInt : FTok
  | fFloat : FTok
deriving DecidableEq

/-- A value assigned by a conversion. -/
inductive SVal where
  | iv : Int → SVal
  | fv : Rat → SVal
deriving DecidableEq

/-- Run a scanf format against an input: returns the values assigned, in
order, stopping at the first failing token (matching failure or input
failure).  The C return value `sscanf(...)` corresponds to the length of
this list (the EOF return value -1 is never distinguished from 0 by the
source, which only compares the count against the full field count). -/
def runScan : List FTok → List Char → List SVal
  | [], _ => []
  | FTok.wsp :: fmt, s => runScan fmt (dropWs s)
  | FTok.lit c :: fmt, s =>
    match s with
    | c0 :: s1 => if c0 = c then runScan fmt s1 else []
    | [] => []
  | FTok.dInt :: fmt, s =>
    match scanIntTok s with
    | some p => SVal.iv p.1 :: runScan fmt p.2
    | none => []
  | FTok.xInt :: fmt, s =>
    match scanHexTok s with
    | some p => SVal.iv p.1 :: runScan fmt p.2
    | none => []
  | FTok.fFloat :: fmt, s =>
    match scanFloatTok s with
    | some p => SVal.fv p.1 :: runScan fmt p.2
    | none => []

/-- Integer content of an assigned value (every `%d`/`%x` assignment). -/
def asInt : SVal → Int
  | SVal.iv n => n
  | SVal.fv _ => 0

/-- The integer values assigned by a scan. -/
def intVals (l : List SVal) : List Int := l.map asInt

/-- Integer values assigned when scanning a string with a format. -/
def scanInts (fmt : List FTok) (s : String) : List Int := intVals (runScan fmt s.data)

/-- Number of values a scan assigns (the C `sscanf` return count). -/
def scanCount (fmt : List FTok) (s : String) : Nat := (runScan fmt s.data).length

/-! ## The format strings of ChargeStatsReporter.cpp -/

/-- Format `"%d,%d,%d, %d,%d,%d,%d"` (base charge stats, 7 fields). -/
def CHG_STATS_FMT0 : List FTok :=
  [FTok.dInt, FTok.lit ',', FTok.dInt, FTok.lit ',', FTok.dInt, FTok.lit ',',
   FTok.wsp, FTok.dInt, FTok.lit ',', FTok.dInt, FTok.lit ',', FTok.dInt,
   FTok.lit ',', FTok.dInt]

/-- Format `"%d,%d,%d, %d,%d,%d,%d %d"` (AACR, 8 fields). -/
def CHG_STATS_FMT1 : List FTok := CHG_STATS_FMT0 ++ [FTok.wsp, FTok.dInt]

/-- Format `"%d,%d,%d, %d,%d,%d,%d %d %d,%d"` (AACR + CSI, 10 fields). -/
def CHG_STATS_FMT2 : List FTok :=
  CHG_STATS_FMT1 ++ [FTok.wsp, FTok.dInt, FTok.lit ',', FTok.dInt]

/-- Wireless adapter-type line format `"A:%d"`. -/
def WLC_AT_FMT : List FTok := [FTok.lit 'A', FTok.lit ':', FTok.dInt]

/-- Wireless adapter-capability line format `"D:%x,%x,%x,%x,%x, %x,%x"`. -/
def WLC_AC_FMT : List FTok :=
  [FTok.lit 'D', FTok.lit ':', FTok.xInt, FTok.lit ',', FTok.xInt, FTok.lit ',',
   FTok.xInt, FTok.lit ',', FTok.xInt, FTok.lit ',', FTok.xInt, FTok.lit ',',
   FTok.wsp, FTok.xInt, FTok.lit ',', FTok.xInt]

/-- PCA line format `"D:%x,%x %x,%x,%x,%x,%x"`. -/
def PCA_FMT : List FTok :=
  [FTok.lit 'D', FTok.lit ':', FTok.xInt, FTok.lit ',', FTok.xInt, FTok.wsp,
   FTok.xInt, FTok.lit ',', FTok.xInt, FTok.lit ',', FTok.xInt, FTok.lit ',',
   FTok.xInt, FTok.lit ',', FTok.xInt]

/-- Generic-charger PDO line format `"D:%x,%x,%x,%x,%x,%x,%x"`. -/
def PDO_FMT : List FTok :=
  [FTok.lit 'D', FTok.lit ':', FTok.xInt, FTok.lit ',', FTok.xInt, FTok.lit ',',
   FTok.xInt, FTok.lit ',', FTok.xInt, FTok.lit ',', FTok.xInt, FTok.lit ',',
   FTok.xInt, FTok.lit ',', FTok.xInt]

/-- Voltage-tier line format
`"%d, %f,%d,%d, %d,%d,%d, %d,%d,%d, %d,%d,%d, %d,%d,%d"` (16 fields). -/
def TIER_FMT : List FTok :=
  [FTok.dInt, FTok.lit ',', FTok.wsp, FTok.fFloat, FTok.lit ',', FTok.dInt,
   FTok.lit ',', FTok.dInt, FTok.lit ',', FTok.wsp, FTok.dInt, FTok.lit ',',
   FTok.dInt, FTok.lit ',', FTok.dInt, FTok.lit ',', FTok.wsp, FTok.dInt,
   FTok.lit ',', FTok.dInt, FTok.lit ',', FTok.dInt, FTok.lit ',', FTok.wsp,
   FTok.dInt, FTok.lit ',', FTok.dInt, FTok.lit ',', FTok.dInt, FTok.lit ',',
   FTok.wsp, FTok.dInt, FTok.lit ',', FTok.dInt, FTok.lit ',', FTok.dInt]

/-! ## Line splitting (model of std::getline) -/

/-- Helper for `getLines`: split on newline characters. -/
def linesAux : List Char → List Char → List String
  | acc, [] => [String.mk acc.reverse]
  | acc, c :: cs =>
    if c = '\n' then String.mk acc.reverse :: linesAux [] cs
    else linesAux (c :: acc) cs

/-- The successive lines `std::getline` yields from a string: split on
newlines; a trailing empty segment (from a trailing newline, or an empty
string) is not yielded, since `getline` fails when it extracts no
characters at end of stream. -/
def getLines (s : String) : List String :=
  let parts := linesAux [] s.data
  if parts.getLast? = some "" then parts.dropLast else parts

/-! ## Slot arrays -/

/-- `int tmp[n] = {0}`. -/
def zeroA : Nat → Int := fun _ => 0

/-- Write one slot. -/
def updA (t : Nat → Int) (i : Nat) (v : Int) : Nat → Int :=
  fun j => if j = i then v else t j

/-- Write a list of values at consecutive slots starting at `i` (the
effect of a scan whose destination pointers are `&tmp[i], &tmp[i+1], ...`,
including a scan that assigns only a prefix before failing). -/
def writeSeq : (Nat → Int) → Nat → List Int → (Nat → Int)
  | t, _, [] => t
  | t, i, v :: vs => writeSeq (updA t i v) (i + 1) vs

/-! ## Throttle gate (shouldReportEvent) -/

/-- `DURATION_FILTER_SECS`. -/
def DURATION_FILTER_SECS : Int := 15

/-- Model of `ChargeStatsReporter::shouldReportEvent`.  Input: the current
boot time (`getTimeSecs()`) and the member `log_event_time_secs_`; output:
the returned decision and the member value after the call. -/
def shouldReportEvent (current_time : Int) (log_event_time_secs : Int) : Bool × Int :=
  if current_time = 0 then (false, log_event_time_secs)
  else if log_event_time_secs = 0 ∨ log_event_time_secs + DURATION_FILTER_SECS < current_time then
    (true, current_time)
  else (false, log_event_time_secs)

/-! ## Summary-line format resolution and session assembly -/

/-- The summary-line format that the if-chain of `ReportChargeStats`
settles on. -/
inductive ChgFmt where
  | csi
  | aacr
  | base
deriving DecidableEq

/-- The format chosen by the `sscanf` if-chain at the top of
`ReportChargeStats` (lines 87-104): FMT2 accepted only on exactly 10
assigned fields, then FMT1 on exactly 8, then FMT0 on exactly 7. -/
def resolveFormat (line : String) : Option ChgFmt :=
  if scanCount CHG_STATS_FMT2 line = 10 then some ChgFmt.csi
  else if scanCount CHG_STATS_FMT1 line = 8 then some ChgFmt.aacr
  else if scanCount CHG_STATS_FMT0 line = 7 then some ChgFmt.base
  else none

/-- The `tmp` array contents after the summary `sscanf` if-chain of
`ReportChargeStats`, or `none` when no format matched and the function
returned early.  Each attempted scan writes the values it assigned into
`tmp[0..]` even when the attempt fails short of its full field count, as
the C scans do. -/
def parseSummary (line : String) : Option (Nat → Int) :=
  let v2 := scanInts CHG_STATS_FMT2 line
  let t2 := writeSeq zeroA 0 v2
  if v2.length = 10 then some t2
  else
    let v1 := scanInts CHG_STATS_FMT1 line
    let t1 := writeSeq t2 0 v1
    if v1.length = 8 then some t1
    else
      let v0 := scanInts CHG_STATS_FMT0 line
      let t0 := writeSeq t1 0 v0
      if v0.length = 7 then some t0 else none

/-- Modelled from the spec: the numeric value of
`PixelAtoms::ChargeStats::ADAPTER_TYPE_USB_PD_PPS`, the fixed PPS
adapter-type sentinel.  Its definition lives in the generated
`pixelatoms.pb.h`, outside this source tree; no claim depends on the
concrete number. -/
def ADAPTER_TYPE_USB_PD_PPS : Int := 2

/-- The wireless block of `ReportChargeStats` (lines 106-120): when the
adapter-type line is non-empty and scans as `"A:%d"`, slot 0 gets the
translated system mode; the capability line is then scanned, writing
`tmp[10..16]` for as many fields as it assigns, and the populated count is
extended to 17 only when all 7 fields scanned. -/
def applyWireless (translate : Int → Int) (wline_at wline_ac : String)
    (st : (Nat → Int) × Nat) : (Nat → Int) × Nat :=
  if wline_at = "" then st
  else
    let va := scanInts WLC_AT_FMT wline_at
    if va.length = 1 then
      let tmp0 := updA st.1 0 (translate (va.getD 0 0))
      let vac := scanInts WLC_AC_FMT wline_ac
      let tmp1 := writeSeq tmp0 10 vac
      if vac.length = 7 then (tmp1, 17) else (tmp1, st.2)
    else st

/-- The PCA block of `ReportChargeStats` (lines 122-141): on a full
7-field scan of the PCA line (values `[ac0, ac1, rs0, rs1, rs2, rs3,
rs4]`), slots 12, 13, 14, 16 always receive `rs2, rs3, rs4, rs1`, the
populated count becomes 17, and only when the wireless adapter-type line
is empty, slot 0 is forced to the PPS sentinel and slots 10, 11, 15
receive `ac0, ac1, rs0`. -/
def applyPca (wline_at pca_line : String) (st : (Nat → Int) × Nat) :
    (Nat → Int) × Nat :=
  if pca_line = "" then st
  else
    let v := scanInts PCA_FMT pca_line
    if v.length = 7 then
      let tmp0 := updA (updA (updA (updA st.1 12 (v.getD 4 0)) 13 (v.getD 5 0))
        14 (v.getD 6 0)) 16 (v.getD 3 0)
      let tmp1 :=
        if wline_at = "" then
          updA (updA (updA (updA tmp0 0 ADAPTER_TYPE_USB_PD_PPS) 10 (v.getD 0 0))
            11 (v.getD 1 0)) 15 (v.getD 2 0)
        else tmp0
      (tmp1, 17)
    else st

/-- The loop of the generic-charger block (lines 145-155): the first line
whose `PDO_FMT` scan assigns all 7 fields, if any. -/
def findPdo : List String → Option (List Int)
  | [] => none
  | l :: ls =>
    let v := scanInts PDO_FMT l
    if v.length = 7 then some v else findPdo ls

/-- The generic-charger block of `ReportChargeStats` (lines 143-156): when
the metrics file read succeeded and some line matches the PDO format with
values `[ac0, ac1, rs0, rs1, rs2, rs3, rs4]`, slot 15 receives `ac1`
(APDO) and slot 16 receives `rs4` (PDO); the populated count is not
changed. -/
def applyGcharger (gcharger : Option String) (st : (Nat → Int) × Nat) :
    (Nat → Int) × Nat :=
  match gcharger with
  | none => st
  | some s =>
    match findPdo (getLines s) with
    | none => st
    | some v => (updA (updA st.1 15 (v.getD 1 0)) 16 (v.getD 6 0), st.2)

/-- An assembled ChargeStats session record: the 17 `tmp` slots and the
populated-slot count `fields_size` handed to the value-array writer. -/
structure ChargeRecord where
  tmp : Nat → Int
  fields_size : Nat

/-- Model of `ChargeStatsReporter::ReportChargeStats` up to the emission
boundary: `none` when the summary line matched no format (early return
with no emission), otherwise the assembled record.  `translate` stands for
`WirelessChargeStats::TranslateSysModeToAtomValue` and `gcharger` for the
`ReadFileToString(kGChargerMetricsPath, ...)` result, both external to
this source file. -/
def ReportChargeStats (translate : Int → Int)
    (line wline_at wline_ac pca_line : String) (gcharger : Option String) :
    Option ChargeRecord :=
  match parseSummary line with
  | none => none
  | some t =>
    let st := applyGcharger gcharger
      (applyPca wline_at pca_line (applyWireless translate wline_at wline_ac (t, 10)))
    some ⟨st.1, st.2⟩

/-- Slot accessor on an optional record (0 when no record was emitted). -/
def chargeSlot (o : Option ChargeRecord) (i : Nat) : Int :=
  match o with
  | some r => r.tmp i
  | none => 0

/-- Populated-slot count of an optional record (0 when none). -/
def chargeFields (o : Option ChargeRecord) : Nat :=
  match o with
  | some r => r.fields_size
  | none => 0

/-! ## Voltage-tier samples -/

/-- An assembled VoltageTierStats sample: `tmp` holds the 19 integer
slots (`tmp[0]` the tier index, `tmp[1..14]` the scanned integers,
`tmp[15..18]` the wireless extension), `ssoc` the fractional
state-of-charge, and `fields_size` the populated-slot count. -/
structure TierRecord where
  tmp : Nat → Int
  ssoc : Rat
  fields_size : Nat

/-- C `static_cast<int>` on the fractional state of charge: truncation
toward zero. -/
def ratTrunc (q : Rat) : Int := if q < 0 then Int.ceil q else Int.floor q

/-- Model of `ChargeStatsReporter::ReportVoltageTierStats` up to the
emission boundary: `none` when the line does not scan as exactly the
16-field tier format (the line is silently skipped), otherwise the
assembled sample.  `wstats` stands for
`WirelessChargeStats::CalculateWirelessChargeStats` followed by reading
`pout_min_, pout_avg_, pout_max_, of_freq_`, external to this source
file. -/
def ReportVoltageTierStats (wstats : Int → String → Int × Int × Int × Int)
    (line : String) (has_wireless : Bool) (wfile_contents : String) :
    Option TierRecord :=
  let vs := runScan TIER_FMT line.data
  if vs.length = 16 then
    let ssoc : Rat :=
      match vs.getD 1 (SVal.iv 0) with
      | SVal.fv q => q
      | SVal.iv n => (n : Rat)
    let tmp := writeSeq (updA zeroA 0 (asInt (vs.getD 0 (SVal.iv 0)))) 1
      (intVals (vs.drop 2))
    if has_wireless then
      let p := wstats (ratTrunc ssoc) wfile_contents
      let tmp2 := updA (updA (updA (updA tmp 15 p.1) 16 p.2.1) 17 p.2.2.1) 18 p.2.2.2
      some ⟨tmp2, ssoc, 20⟩
    else some ⟨tmp, ssoc, 16⟩
  else none

/-! ## The drain cycle (checkAndReport) -/

/-- Model of `ChargeStatsReporter::checkContentsAndAck`: the usable
contents of an auxiliary source, given the read result and whether the
truncation to "0" succeeded.  A failed read, or a failed truncation,
yields `none` (source treated as absent). -/
def checkContentsAndAck (read : Option String) (clearOk : Bool) : Option String :=
  match read with
  | none => none
  | some s => if clearOk then some s else none

/-- One emitted telemetry record. -/
inductive Event where
  | charge : ChargeRecord → Event
  | tier : TierRecord → Event

/-- Whether an event is a ChargeStats session record. -/
def Event.isCharge : Event → Bool
  | Event.charge _ => true
  | Event.tier _ => false

/-- The tier events a list of lines yields (one per line that parses). -/
def tierEvents (wstats : Int → String → Int × Int × Int × Int)
    (has_wireless : Bool) (wfile : String) (ls : List String) : List Event :=
  ls.filterMap fun l => (ReportVoltageTierStats wstats l has_wireless wfile).map Event.tier

/-- The events one auxiliary tier-log source contributes: nothing unless
both its read and its truncation succeed, else one tier event per
well-formed line (drained with `has_wireless = false`). -/
def auxDrain (wstats : Int → String → Int × Int × Int × Int)
    (read : Option String) (clearOk : Bool) : List Event :=
  match checkContentsAndAck read clearOk with
  | none => []
  | some s => tierEvents wstats false "" (getLines s)

/-- The first line `std::getline` yields from an optional side-channel
content, or `""` (the C string left empty when the channel is absent or
its content empty). -/
def firstLineOf : Option String → String
  | some s => (getLines s).headD ""
  | none => ""

/-- The second line, or `""`. -/
def secondLineOf : Option String → String
  | some s => ((getLines s).drop 1).headD ""
  | none => ""

/-- The external world one drain cycle sees: read results (`none` = read
failure), truncation outcomes, the boot clock, and the external wireless
capabilities.  `pca` and `wireless` are the contents delivered by
`PcaChargeStats::CheckPcaContentsAndAck` and
`WirelessChargeStats::CheckWirelessContentsAndAck` (both outside this
source file); `none` means the check reported no content. -/
structure DrainEnv where
  primary : Option String
  primaryClearOk : Bool
  bootTime : Int
  pca : Option String
  wireless : Option String
  thermalRead : Option String
  thermalClearOk : Bool
  gchargerRead : Option String
  gchargerClearOk : Bool
  gdbattRead : Option String
  gdbattClearOk : Bool
  translate : Int → Int
  wstats : Int → String → Int × Int × Int × Int

/-- The observable outcome of one drain cycle: the emitted events in
order, the throttle member after the call, and the primary file content
after the call (`none` when the read failed and the file was left alone). -/
structure DrainOut where
  events : List Event
  logEventTimeAfter : Int
  primaryAfter : Option String

/-- The session event list (one element on success, none on a malformed
summary line). -/
def sessionEvents (translate : Int → Int)
    (line wline_at wline_ac pca_line : String) (gcharger : Option String) :
    List Event :=
  match ReportChargeStats translate line wline_at wline_ac pca_line gcharger with
  | some r => [Event.charge r]
  | none => []

/-- Model of `ChargeStatsReporter::checkAndReport` (lines 263-344): read
the primary log (abort on failure), take its first line (abort when
empty), truncate the file to "0" (failure logged only), ask the throttle
gate (abort on rejection), then assemble and emit the session record from
the first line plus the PCA / wireless side channels, one tier sample per
remaining primary line, and one tier sample per line of each auxiliary
tier-log source (thermal, generic charger, dual battery). -/
def checkAndReport (env : DrainEnv) (log_event_time_secs : Int) : DrainOut :=
  match env.primary with
  | none => ⟨[], log_event_time_secs, none⟩
  | some contents =>
    match getLines contents with
    | [] => ⟨[], log_event_time_secs, some contents⟩
    | line :: rest =>
      let after := if env.primaryClearOk then "0" else contents
      if (shouldReportEvent env.bootTime log_event_time_secs).1 then
        ⟨sessionEvents env.translate line (firstLineOf env.wireless)
            (secondLineOf env.wireless) (firstLineOf env.pca) env.gchargerRead
          ++ tierEvents env.wstats env.wireless.isSome (env.wireless.getD "") rest
          ++ auxDrain env.wstats env.thermalRead env.thermalClearOk
          ++ auxDrain env.wstats env.gchargerRead env.gchargerClearOk
          ++ auxDrain env.wstats env.gdbattRead env.gdbattClearOk,
         (shouldReportEvent env.bootTime log_event_time_secs).2, some after⟩
      else ⟨[], (shouldReportEvent env.bootTime log_event_time_secs).2, some after⟩

/-- Number of conversion directives (assignable fields) in a format. -/
def numConvs : List FTok → Nat
  | [] => 0
  | FTok.lit _ :: fmt => numConvs fmt
  | FTok.wsp :: fmt => numConvs fmt
  | FTok.dInt :: fmt => numConvs fmt + 1
  | FTok.xInt :: fmt => numConvs fmt + 1
  | FTok.fFloat :: fmt => numConvs fmt + 1

/-! ## Concrete inputs used to instantiate the theorems -/

/-- A demo stand-in for the external wireless mode translator. -/
def translateDemo : Int → Int := fun n => n + 100

/-- A demo stand-in for the external wireless tier-stats calculator. -/
def wstatsDemo : Int → String → Int × Int × Int × Int := fun _ _ => (0, 0, 0, 0)

/-- A well-formed voltage-tier line (the spec example). -/
def tierLineDemo : String := "1, 85.5,1200,320, 10,5,2, 15,18,22, -200,-150,-100, 50,55,60"

/-- Drain environment with an unreadable boot clock (reads zero) and a
well-formed tier line waiting in the thermal source. -/
def envThrottleReject : DrainEnv where
  primary := some "1,2,3, 4,5,6,7"
  primaryClearOk := true
  bootTime := 0
  pca := none
  wireless := none
  thermalRead := some tierLineDemo
  thermalClearOk := true
  gchargerRead := none
  gchargerClearOk := true
  gdbattRead := none
  gdbattClearOk := true
  translate := translateDemo
  wstats := wstatsDemo

/-- Drain environment whose primary log starts with a summary line
matching no format, followed by a well-formed tier line. -/
def envMalformedSummary : DrainEnv :=
  { envThrottleReject with bootTime := 20, primary := some ("garbage\n" ++ tierLineDemo), thermalRead := none }

/-- Drain environment where the thermal source reads fine but its
truncation fails. -/
def envThermalClearFail : DrainEnv :=
  { envThrottleReject with bootTime := 20, thermalClearOk := false }

/-- The same environment with the thermal truncation succeeding. -/
def envThermalClearOk : DrainEnv :=
  { envThrottleReject with bootTime := 20 }

/-- Drain environment rejected by the rolling window (boot time 105
against an anchor of 100), primary log holding a session. -/
def envCooldownReject : DrainEnv :=
  { envThrottleReject with bootTime := 105, primary := some "1,2,3, 4,5,6,7\nx" }

end ChargeStatsModel

namespace ChargeStatsModel

/-! ## Helper lemmas -/

/-- A scan assigns at most as many values as the format has conversion
directives. -/
theorem runScan_length_le (fmt : List FTok) :
    ∀ s : List Char, (runScan fmt s).length ≤ numConvs fmt := by
  induction fmt with
  | nil => intro s; simp [runScan, numConvs]
  | cons tok fmt ih =>
    intro s
    cases tok with
    | lit c =>
      cases s with
      | nil => simp [runScan, numConvs]
      | cons c0 s1 =>
        by_cases h : c0 = c <;> simp only [runScan, numConvs, h, if_true, if_false]
        · exact ih s1
        · simp
    | wsp => simpa only [runScan, numConvs] using ih (dropWs s)
    | dInt =>
      cases h : scanIntTok s with
      | none => simp [runScan, h, numConvs]
      | some p =>
        simpa only [runScan, h, numConvs, List.length_cons, Nat.succ_le_succ_iff]
          using ih p.2
    | xInt =>
      cases h : scanHexTok s with
      | none => simp [runScan, h, numConvs]
      | some p =>
        simpa only [runScan, h, numConvs, List.length_cons, Nat.succ_le_succ_iff]
          using ih p.2
    | fFloat =>
      cases h : scanFloatTok s with
      | none => simp [runScan, h, numConvs]
      | some p =>
        simpa only [runScan, h, numConvs, List.length_cons, Nat.succ_le_succ_iff]
          using ih p.2

/-- A consecutive write leaves slots at or beyond `i + vs.length`
untouched. -/
theorem writeSeq_out (vs : List Int) :
    ∀ (t : Nat → Int) (i j : Nat), i + vs.length ≤ j → writeSeq t i vs j = t j := by
  induction vs with
  | nil => intro t i j _; simp [writeSeq]
  | cons v vs ih =>
    intro t i j hj
    simp only [List.length_cons] at hj
    simp only [writeSeq]
    rw [ih (updA t i v) (i + 1) j (by omega)]
    have hne : j ≠ i := by omega
    simp [updA, hne]

/-- The summary scan chain populates only slots 0 through 9: any higher
slot of the array `parseSummary` yields is still zero. -/
theorem parseSummary_high_slots (line : String) (t : Nat → Int)
    (h : parseSummary line = some t) : ∀ j : Nat, 10 ≤ j → t j = 0 := by
  intro j hj
  have b2 : (scanInts CHG_STATS_FMT2 line).length ≤ 10 := by
    have hb := runScan_length_le CHG_STATS_FMT2 line.data
    have he : numConvs CHG_STATS_FMT2 = 10 := by decide
    simpa [scanInts, intVals, he] using hb
  have b1 : (scanInts CHG_STATS_FMT1 line).length ≤ 8 := by
    have hb := runScan_length_le CHG_STATS_FMT1 line.data
    have he : numConvs CHG_STATS_FMT1 = 8 := by decide
    simpa [scanInts, intVals, he] using hb
  simp only [parseSummary] at h
  split_ifs at h with h2 h1 h0
  · injection h with h; subst h
    rw [writeSeq_out _ _ _ _ (by omega)]; rfl
  · injection h with h; subst h
    rw [writeSeq_out _ _ _ _ (by omega), writeSeq_out _ _ _ _ (by omega)]; rfl
  · injection h with h; subst h
    rw [writeSeq_out _ _ _ _ (by omega), writeSeq_out _ _ _ _ (by omega),
      writeSeq_out _ _ _ _ (by omega)]; rfl

/-- A rejected throttle decision leaves the stored anchor unchanged. -/
theorem shouldReportEvent_false_snd (current st : Int)
    (h : (shouldReportEvent current st).1 = false) :
    (shouldReportEvent current st).2 = st := by
  unfold shouldReportEvent at h ⊢
  split_ifs at h ⊢ <;> simp_all

/-- The wireless block never shrinks the populated count below what it
received, and extends it only to 17. -/
theorem applyWireless_snd (tr : Int → Int) (wat wac : String)
    (st : (Nat → Int) × Nat) :
    (applyWireless tr wat wac st).2 = st.2 ∨ (applyWireless tr wat wac st).2 = 17 := by
  simp only [applyWireless]
  split_ifs <;> simp

/-- The PCA block keeps the populated count or sets it to 17. -/
theorem applyPca_snd (wat pca : String) (st : (Nat → Int) × Nat) :
    (applyPca wat pca st).2 = st.2 ∨ (applyPca wat pca st).2 = 17 := by
  simp only [applyPca]
  split_ifs <;> simp

/-- The generic-charger block never changes the populated count. -/
theorem applyGcharger_snd (g : Option String) (st : (Nat → Int) × Nat) :
    (applyGcharger g st).2 = st.2 := by
  cases g with
  | none => rfl
  | some s =>
    cases h : findPdo (getLines s) with
    | none => simp [applyGcharger, h]
    | some v => simp [applyGcharger, h]

/-- `tierEvents` yields only tier events. -/
theorem not_charge_mem_tierEvents (w : Int → String → Int × Int × Int × Int)
    (hw : Bool) (wf : String) (ls : List String) (r : ChargeRecord) :
    Event.charge r ∉ tierEvents w hw wf ls := by
  intro hmem
  simp only [tierEvents, List.mem_filterMap] at hmem
  obtain ⟨l, -, hl⟩ := hmem
  cases hrv : ReportVoltageTierStats w l hw wf with
  | none => rw [hrv] at hl; exact Option.noConfusion hl
  | some t =>
    rw [hrv] at hl
    exact Event.noConfusion (Option.some.inj hl)

/-- An auxiliary drain yields only tier events. -/
theorem not_charge_mem_auxDrain (w : Int → String → Int × Int × Int × Int)
    (read : Option String) (clearOk : Bool) (r : ChargeRecord) :
    Event.charge r ∉ auxDrain w read clearOk := by
  unfold auxDrain
  cases checkContentsAndAck read clearOk with
  | none => simp
  | some s => exact not_charge_mem_tierEvents w false "" (getLines s) r

/-! ## Claim theorems -/

/-- Claim C1, counterexample.  The claim says a second report attempt 15
seconds after an accepted one at boot-time 100 is accepted; the code
rejects it, because `log_event_time_secs_ + DURATION_FILTER_SECS <
current_time` is strict. -/
theorem c1_counterexample :
    shouldReportEvent 100 0 = (true, 100) ∧
    (shouldReportEvent (100 + 15) 100).1 = false := by
  decide

/-- Claim C1, amended: given two report attempts at boot-times T (accepted,
T positive) and T+14, the second is rejected; at T+15 it is still rejected
(the window boundary itself is excluded); at T+16 it is accepted; and a
rejected attempt never changes the stored window anchor. -/
theorem c1_throttle_window :
    (∀ T : Int, 0 < T →
      shouldReportEvent T 0 = (true, T) ∧
      shouldReportEvent (T + 14) T = (false, T) ∧
      shouldReportEvent (T + 15) T = (false, T) ∧
      shouldReportEvent (T + 16) T = (true, T + 16)) ∧
    (∀ current st : Int, (shouldReportEvent current st).1 = false →
      (shouldReportEvent current st).2 = st) := by
  constructor
  · intro T hT
    refine ⟨?_, ?_, ?_, ?_⟩ <;> simp only [shouldReportEvent, DURATION_FILTER_SECS]
    · rw [if_neg (by omega : ¬(T = 0)), if_pos (Or.inl (by simp))]
    · rw [if_neg (by omega : ¬(T + 14 = 0)),
        if_neg (fun hc => hc.elim (fun hz => by omega) (fun hlt => by omega))]
    · rw [if_neg (by omega : ¬(T + 15 = 0)),
        if_neg (fun hc => hc.elim (fun hz => by omega) (fun hlt => by omega))]
    · rw [if_neg (by omega : ¬(T + 16 = 0)), if_pos (Or.inr (by omega))]
  · exact shouldReportEvent_false_snd

/-- Claim C1, witness for the amended theorem at T = 100. -/
theorem c1_witness :
    shouldReportEvent (100 + 16) 100 = (true, 100 + 16) :=
  (c1_throttle_window.1 100 (by decide)).2.2.2

/-- Claim C7: the summary-line resolver tries the CSI format (10 fields),
then AACR (8), then base (7), accepting a format exactly when its scan
assigns exactly that format's field count; a line whose CSI scan assigns
all 10 fields resolves to CSI even when its base scan also assigns all 7,
never to base. -/
theorem c7_format_priority (line : String) :
    (scanCount CHG_STATS_FMT2 line = 10 ∧ scanCount CHG_STATS_FMT0 line = 7 →
      resolveFormat line = some ChgFmt.csi) ∧
    (resolveFormat line = some ChgFmt.csi ↔ scanCount CHG_STATS_FMT2 line = 10) ∧
    (resolveFormat line = some ChgFmt.aacr ↔
      scanCount CHG_STATS_FMT2 line ≠ 10 ∧ scanCount CHG_STATS_FMT1 line = 8) ∧
    (resolveFormat line = some ChgFmt.base ↔
      scanCount CHG_STATS_FMT2 line ≠ 10 ∧ scanCount CHG_STATS_FMT1 line ≠ 8 ∧
        scanCount CHG_STATS_FMT0 line = 7) := by
  unfold resolveFormat
  split_ifs with h2 h1 h0 <;> simp_all

/-- Claim C7, witness: the spec example line extended with AACR and CSI
fields satisfies both the CSI and base positional shapes and resolves to
CSI. -/
theorem c7_witness :
    resolveFormat "3,9000,2000, 80,4400,90,4450 8 1,2" = some ChgFmt.csi :=
  (c7_format_priority "3,9000,2000, 80,4400,90,4450 8 1,2").1 ⟨by decide, by decide⟩

/-- Claim C8: every emitted session record has a populated-slot count of
exactly 10 or exactly 17, and every emitted voltage-tier sample has a
populated-slot count of exactly 16 or exactly 20. -/
theorem c8_schema_width :
    (∀ (translate : Int → Int) (line wat wac pca : String) (g : Option String)
      (r : ChargeRecord),
      ReportChargeStats translate line wat wac pca g = some r →
      r.fields_size = 10 ∨ r.fields_size = 17) ∧
    (∀ (wstats : Int → String → Int × Int × Int × Int) (line : String)
      (hw : Bool) (wf : String) (t : TierRecord),
      ReportVoltageTierStats wstats line hw wf = some t →
      t.fields_size = 16 ∨ t.fields_size = 20) := by
  constructor
  · intro translate line wat wac pca g r h
    unfold ReportChargeStats at h
    cases hp : parseSummary line with
    | none => rw [hp] at h; exact Option.noConfusion h
    | some t0 =>
      rw [hp] at h
      simp only [Option.some.injEq] at h
      have hr : r.fields_size =
          (applyGcharger g (applyPca wat pca (applyWireless translate wat wac (t0, 10)))).2 := by
        rw [← h]
      rw [hr, applyGcharger_snd]
      rcases applyPca_snd wat pca (applyWireless translate wat wac (t0, 10)) with hp2 | hp2 <;>
        rw [hp2]
      · rcases applyWireless_snd translate wat wac (t0, 10) with hw2 | hw2 <;> rw [hw2] <;> simp
      · simp
  · intro wstats line hw wf t h
    simp only [ReportVoltageTierStats] at h
    split_ifs at h <;> (injection h with h; subst h; simp)

/-- Claim C8, witness: a base summary line yields a 10-slot record and the
spec example tier line a 16-slot sample. -/
theorem c8_witness :
    (((ReportChargeStats translateDemo "1,2,3, 4,5,6,7" "" "" "" none).getD
        ⟨zeroA, 0⟩).fields_size = 10 ∨
      ((ReportChargeStats translateDemo "1,2,3, 4,5,6,7" "" "" "" none).getD
        ⟨zeroA, 0⟩).fields_size = 17) ∧
    (((ReportVoltageTierStats wstatsDemo tierLineDemo false "").getD
        ⟨zeroA, 0, 0⟩).fields_size = 16 ∨
      ((ReportVoltageTierStats wstatsDemo tierLineDemo false "").getD
        ⟨zeroA, 0, 0⟩).fields_size = 20) :=
  ⟨c8_schema_width.1 translateDemo "1,2,3, 4,5,6,7" "" "" "" none _ rfl,
   c8_schema_width.2 wstatsDemo tierLineDemo false "" _ rfl⟩

/-- Claim C5: side-channel merging.  With a parsed wireless snapshot and
no PCA line (and no generic-charger snapshot), slots 10 through 16 come
from the wireless capability line.  With a parsed PCA line and no wireless
snapshot, slot 0 becomes the PPS sentinel and slots 10, 11, 15 come from
the PCA adapter-capability/receiver-state values (slots 12, 13, 14, 16
from the PCA receiver states).  With both present, slot 0 keeps the
wireless-translated adapter type, and slots 12, 13, 14, 16 come from PCA. -/
theorem c5_slot_exclusivity :
    (∀ (translate : Int → Int) (line wat wac : String) (t0 : Nat → Int)
      (a c0 c1 c2 c3 c4 c5 c6 : Int),
      parseSummary line = some t0 → wat ≠ "" →
      scanInts WLC_AT_FMT wat = [a] →
      scanInts WLC_AC_FMT wac = [c0, c1, c2, c3, c4, c5, c6] →
      chargeSlot (ReportChargeStats translate line wat wac "" none) 10 = c0 ∧
      chargeSlot (ReportChargeStats translate line wat wac "" none) 11 = c1 ∧
      chargeSlot (ReportChargeStats translate line wat wac "" none) 12 = c2 ∧
      chargeSlot (ReportChargeStats translate line wat wac "" none) 13 = c3 ∧
      chargeSlot (ReportChargeStats translate line wat wac "" none) 14 = c4 ∧
      chargeSlot (ReportChargeStats translate line wat wac "" none) 15 = c5 ∧
      chargeSlot (ReportChargeStats translate line wat wac "" none) 16 = c6) ∧
    (∀ (translate : Int → Int) (line pca : String) (t0 : Nat → Int)
      (p0 p1 p2 p3 p4 p5 p6 : Int),
      parseSummary line = some t0 → pca ≠ "" →
      scanInts PCA_FMT pca = [p0, p1, p2, p3, p4, p5, p6] →
      chargeSlot (ReportChargeStats translate line "" "" pca none) 0 =
        ADAPTER_TYPE_USB_PD_PPS ∧
      chargeSlot (ReportChargeStats translate line "" "" pca none) 10 = p0 ∧
      chargeSlot (ReportChargeStats translate line "" "" pca none) 11 = p1 ∧
      chargeSlot (ReportChargeStats translate line "" "" pca none) 15 = p2 ∧
      chargeSlot (ReportChargeStats translate line "" "" pca none) 12 = p4 ∧
      chargeSlot (ReportChargeStats translate line "" "" pca none) 13 = p5 ∧
      chargeSlot (ReportChargeStats translate line "" "" pca none) 14 = p6 ∧
      chargeSlot (ReportChargeStats translate line "" "" pca none) 16 = p3) ∧
    (∀ (translate : Int → Int) (line wat wac pca : String) (t0 : Nat → Int)
      (a c0 c1 c2 c3 c4 c5 c6 p0 p1 p2 p3 p4 p5 p6 : Int),
      parseSummary line = some t0 → wat ≠ "" → pca ≠ "" →
      scanInts WLC_AT_FMT wat = [a] →
      scanInts WLC_AC_FMT wac = [c0, c1, c2, c3, c4, c5, c6] →
      scanInts PCA_FMT pca = [p0, p1, p2, p3, p4, p5, p6] →
      chargeSlot (ReportChargeStats translate line wat wac pca none) 0 = translate a ∧
      chargeSlot (ReportChargeStats translate line wat wac pca none) 12 = p4 ∧
      chargeSlot (ReportChargeStats translate line wat wac pca none) 13 = p5 ∧
      chargeSlot (ReportChargeStats translate line wat wac pca none) 14 = p6 ∧
      chargeSlot (ReportChargeStats translate line wat wac pca none) 16 = p3) := by
  refine ⟨?_, ?_, ?_⟩
  · intro translate line wat wac t0 a c0 c1 c2 c3 c4 c5 c6 hsum hwat hA hAC
    simp [ReportChargeStats, hsum, applyWireless, applyPca, applyGcharger,
      chargeSlot, hwat, hA, hAC, writeSeq, updA]
  · intro translate line pca t0 p0 p1 p2 p3 p4 p5 p6 hsum hpca hp
    simp [ReportChargeStats, hsum, applyWireless, applyPca, applyGcharger,
      chargeSlot, hpca, hp, updA]
  · intro translate line wat wac pca t0 a c0 c1 c2 c3 c4 c5 c6
      p0 p1 p2 p3 p4 p5 p6 hsum hwat hpca hA hAC hp
    simp [ReportChargeStats, hsum, applyWireless, applyPca, applyGcharger,
      chargeSlot, hwat, hpca, hA, hAC, hp, writeSeq, updA]

/-- Claim C5, witness: the wireless-only case on the spec example inputs. -/
theorem c5_witness :
    chargeSlot (ReportChargeStats translateDemo "1,2,3, 4,5,6,7" "A:2"
      "D:1,2,3,4,5, 6,7" "" none) 10 = 1 :=
  (c5_slot_exclusivity.1 translateDemo "1,2,3, 4,5,6,7" "A:2" "D:1,2,3,4,5, 6,7"
    ((parseSummary "1,2,3, 4,5,6,7").getD zeroA) 2 1 2 3 4 5 6 7
    rfl (by decide) rfl rfl).1

/-- Claim C6: when the generic-charger snapshot read succeeds and some
line of it matches the 7-hex-field PDO format, the first such line
unconditionally overwrites slot 15 (APDO, second scanned value) and slot
16 (PDO, seventh scanned value) of the session record -- whatever the
wireless and PCA inputs were. -/
theorem c6_gcharger_override (translate : Int → Int)
    (line wat wac pca g : String) (t0 : Nat → Int) (v : List Int)
    (hsum : parseSummary line = some t0)
    (hfind : findPdo (getLines g) = some v) :
    (ReportChargeStats translate line wat wac pca (some g)).isSome = true ∧
    chargeSlot (ReportChargeStats translate line wat wac pca (some g)) 15 =
      v.getD 1 0 ∧
    chargeSlot (ReportChargeStats translate line wat wac pca (some g)) 16 =
      v.getD 6 0 := by
  simp only [ReportChargeStats, hsum]
  refine ⟨rfl, ?_, ?_⟩ <;> simp [applyGcharger, hfind, chargeSlot, updA]

/-- Claim C6, witness: a PDO line after a junk line overrides slot 15 even
with wireless and PCA both present (values are hex: 0x32 = 50). -/
theorem c6_witness :
    chargeSlot (ReportChargeStats translateDemo "1,2,3, 4,5,6,7" "A:2"
      "D:1,2,3,4,5, 6,7" "D:1,2 3,4,5,6,7" (some "junk\nD:31,32,33,34,35,36,37")) 15 =
      [49, 50, 51, 52, 53, 54, 55].getD 1 0 :=
  (c6_gcharger_override translateDemo "1,2,3, 4,5,6,7" "A:2" "D:1,2,3,4,5, 6,7"
    "D:1,2 3,4,5,6,7" "junk\nD:31,32,33,34,35,36,37"
    ((parseSummary "1,2,3, 4,5,6,7").getD zeroA) [49, 50, 51, 52, 53, 54, 55]
    rfl rfl).2.1

/-- Claim C10: when the wireless snapshot is present but its first line
does not scan as `"A:%d"`, no wireless slot is written (the capability
line is never even consulted: the result is the same for every capability
line), and a parsed PCA line still does not apply the PPS sentinel to slot
0 nor populate slots 10, 11, 15 -- because the PCA block tests emptiness of
the wireless adapter-type line, not parse success -- while slots 12, 13,
14, 16 do come from PCA and the populated count still extends to 17. -/
theorem c10_pca_gated_on_emptiness (translate : Int → Int)
    (line wat wac pca : String) (t0 : Nat → Int) (p0 p1 p2 p3 p4 p5 p6 : Int)
    (hsum : parseSummary line = some t0)
    (hwat : wat ≠ "") (hbad : (scanInts WLC_AT_FMT wat).length ≠ 1)
    (hpca : pca ≠ "") (hp : scanInts PCA_FMT pca = [p0, p1, p2, p3, p4, p5, p6]) :
    (∀ wac2 : String, ReportChargeStats translate line wat wac pca none =
      ReportChargeStats translate line wat wac2 pca none) ∧
    chargeSlot (ReportChargeStats translate line wat wac pca none) 0 = t0 0 ∧
    chargeSlot (ReportChargeStats translate line wat wac pca none) 10 = 0 ∧
    chargeSlot (ReportChargeStats translate line wat wac pca none) 11 = 0 ∧
    chargeSlot (ReportChargeStats translate line wat wac pca none) 15 = 0 ∧
    chargeSlot (ReportChargeStats translate line wat wac pca none) 12 = p4 ∧
    chargeSlot (ReportChargeStats translate line wat wac pca none) 13 = p5 ∧
    chargeSlot (ReportChargeStats translate line wat wac pca none) 14 = p6 ∧
    chargeSlot (ReportChargeStats translate line wat wac pca none) 16 = p3 ∧
    chargeFields (ReportChargeStats translate line wat wac pca none) = 17 := by
  have hw0 : ∀ w : String, applyWireless translate wat w (t0, 10) = (t0, 10) := by
    intro w
    simp only [applyWireless]
    rw [if_neg hwat, if_neg hbad]
  have hhigh := parseSummary_high_slots line t0 hsum
  refine ⟨?_, ?_, ?_, ?_, ?_, ?_, ?_, ?_, ?_, ?_⟩
  · intro wac2
    simp only [ReportChargeStats, hsum, hw0]
  · simp [ReportChargeStats, hsum, hw0, applyPca, applyGcharger,
      chargeSlot, hpca, hp, updA, hwat]
  · simp [ReportChargeStats, hsum, hw0, applyPca, applyGcharger,
      chargeSlot, hpca, hp, updA, hwat]
    exact hhigh 10 (by norm_num)
  · simp [ReportChargeStats, hsum, hw0, applyPca, applyGcharger,
      chargeSlot, hpca, hp, updA, hwat]
    exact hhigh 11 (by norm_num)
  · simp [ReportChargeStats, hsum, hw0, applyPca, applyGcharger,
      chargeSlot, hpca, hp, updA, hwat]
    exact hhigh 15 (by norm_num)
  · simp [ReportChargeStats, hsum, hw0, applyPca, applyGcharger,
      chargeSlot, hpca, hp, updA, hwat]
  · simp [ReportChargeStats, hsum, hw0, applyPca, applyGcharger,
      chargeSlot, hpca, hp, updA, hwat]
  · simp [ReportChargeStats, hsum, hw0, applyPca, applyGcharger,
      chargeSlot, hpca, hp, updA, hwat]
  · simp [ReportChargeStats, hsum, hw0, applyPca, applyGcharger,
      chargeSlot, hpca, hp, updA, hwat]
  · simp [ReportChargeStats, hsum, hw0, applyPca, applyGcharger,
      chargeFields, hpca, hp, updA, hwat]

/-- Claim C10, witness: a malformed wireless adapter-type line `"X:2"`
with a parsed PCA line leaves slot 15 at zero. -/
theorem c10_witness :
    chargeSlot (ReportChargeStats translateDemo "1,2,3, 4,5,6,7" "X:2"
      "D:1,2,3,4,5, 6,7" "D:1,2 3,4,5,6,7" none) 15 = 0 :=
  (c10_pca_gated_on_emptiness translateDemo "1,2,3, 4,5,6,7" "X:2"
    "D:1,2,3,4,5, 6,7" "D:1,2 3,4,5,6,7"
    ((parseSummary "1,2,3, 4,5,6,7").getD zeroA) 1 2 3 4 5 6 7
    rfl (by decide) (by decide) (by decide) rfl).2.2.2.2.1

/-- Claim C2, counterexample.  The claim says tier lines (here: a
well-formed tier line waiting in the thermal source) are emitted even when
the session is throttled; with the boot clock reading zero the whole drain
returns before reaching any tier source and emits nothing. -/
theorem c2_counterexample :
    (checkAndReport envThrottleReject 0).events = [] ∧
    envThrottleReject.bootTime = 0 ∧
    envThrottleReject.thermalRead = some tierLineDemo ∧
    envThrottleReject.thermalClearOk = true ∧
    (ReportVoltageTierStats wstatsDemo tierLineDemo false "").isSome = true := by
  exact ⟨rfl, rfl, rfl, rfl, rfl⟩

/-- Claim C2, amended: tier lines -- from the primary log and from every
auxiliary tier-log source -- are parsed and emitted only when the session
throttle accepts; a rejected attempt (zero boot clock included) aborts the
entire drain and emits nothing at all. -/
theorem c2_tiers_gated_by_throttle (env : DrainEnv) (t : Int)
    (c line : String) (rest : List String)
    (h1 : env.primary = some c) (h2 : getLines c = line :: rest) :
    ((shouldReportEvent env.bootTime t).1 = false →
      (checkAndReport env t).events = []) ∧
    ((shouldReportEvent env.bootTime t).1 = true →
      (checkAndReport env t).events =
        sessionEvents env.translate line (firstLineOf env.wireless)
          (secondLineOf env.wireless) (firstLineOf env.pca) env.gchargerRead
        ++ tierEvents env.wstats env.wireless.isSome (env.wireless.getD "") rest
        ++ auxDrain env.wstats env.thermalRead env.thermalClearOk
        ++ auxDrain env.wstats env.gchargerRead env.gchargerClearOk
        ++ auxDrain env.wstats env.gdbattRead env.gdbattClearOk) := by
  constructor
  · intro h3
    simp [checkAndReport, h1, h2, h3]
  · intro h3
    simp [checkAndReport, h1, h2, h3]

/-- Claim C2, witness for the amended theorem: the zero-clock environment
emits nothing. -/
theorem c2_witness : (checkAndReport envThrottleReject 0).events = [] :=
  (c2_tiers_gated_by_throttle envThrottleReject 0 "1,2,3, 4,5,6,7"
    "1,2,3, 4,5,6,7" [] rfl rfl).1 rfl

/-- Claim C3, counterexample.  The claim says that after a malformed
summary line no tier line of that drain is emitted; in fact the drain
continues: the tier line following the garbage summary line is emitted
(one event, and it is not a session record). -/
theorem c3_counterexample :
    parseSummary "garbage" = none ∧
    (checkAndReport envMalformedSummary 0).events.length = 1 ∧
    ((checkAndReport envMalformedSummary 0).events.all
      fun e => !(Event.isCharge e)) = true := by
  exact ⟨rfl, rfl, rfl⟩

/-- Claim C3, amended: a summary line matching no format abandons only the
session record (no ChargeStats event is emitted, with no partial
emission), while the drain continues: the remaining primary lines and
every auxiliary tier-log source are still drained as tier samples. -/
theorem c3_summary_failure_is_local (env : DrainEnv) (t : Int)
    (c line : String) (rest : List String)
    (h1 : env.primary = some c) (h2 : getLines c = line :: rest)
    (h3 : parseSummary line = none)
    (h4 : (shouldReportEvent env.bootTime t).1 = true) :
    (checkAndReport env t).events =
      tierEvents env.wstats env.wireless.isSome (env.wireless.getD "") rest
      ++ auxDrain env.wstats env.thermalRead env.thermalClearOk
      ++ auxDrain env.wstats env.gchargerRead env.gchargerClearOk
      ++ auxDrain env.wstats env.gdbattRead env.gdbattClearOk ∧
    ∀ r : ChargeRecord, Event.charge r ∉ (checkAndReport env t).events := by
  have hse : sessionEvents env.translate line (firstLineOf env.wireless)
      (secondLineOf env.wireless) (firstLineOf env.pca) env.gchargerRead = [] := by
    simp [sessionEvents, ReportChargeStats, h3]
  constructor
  · simp [checkAndReport, h1, h2, h4, hse]
  · intro r
    simp [checkAndReport, h1, h2, h4, hse, not_charge_mem_tierEvents,
      not_charge_mem_auxDrain]

/-- Claim C3, witness for the amended theorem: no session record is ever
among the events of the malformed-summary drain. -/
theorem c3_witness :
    Event.charge ⟨zeroA, 0⟩ ∉ (checkAndReport envMalformedSummary 0).events :=
  (c3_summary_failure_is_local envMalformedSummary 0 ("garbage\n" ++ tierLineDemo)
    "garbage" [tierLineDemo] rfl rfl rfl rfl).2 ⟨zeroA, 0⟩

/-- Claim C4, counterexample.  The claim says a failed truncation after a
successful read leaves the channel usable; for the auxiliary sources
drained through `checkContentsAndAck` a failed truncation discards the
already-read text: with the thermal clear failing, its well-formed tier
line is not emitted (1 event instead of 2). -/
theorem c4_counterexample :
    checkContentsAndAck (some tierLineDemo) false = none ∧
    (checkAndReport envThermalClearFail 0).events.length = 1 ∧
    (checkAndReport envThermalClearOk 0).events.length = 2 := by
  exact ⟨rfl, rfl, rfl⟩

/-- Claim C4, amended: a failed truncation of the primary source is logged
only and never changes what the drain emits (the already-read text is
still used), but for the auxiliary sources drained through
`checkContentsAndAck` (thermal, generic charger, dual battery) a failed
truncation makes the source count as absent for the cycle, its read text
unused. -/
theorem c4_clear_failure_policy :
    (∀ (env : DrainEnv) (t : Int) (b1 b2 : Bool),
      (checkAndReport { env with primaryClearOk := b1 } t).events =
        (checkAndReport { env with primaryClearOk := b2 } t).events ∧
      (checkAndReport { env with primaryClearOk := b1 } t).logEventTimeAfter =
        (checkAndReport { env with primaryClearOk := b2 } t).logEventTimeAfter) ∧
    (∀ s : String, checkContentsAndAck (some s) true = some s) ∧
    (∀ s : String, checkContentsAndAck (some s) false = none) ∧
    (∀ b : Bool, checkContentsAndAck none b = none) := by
  refine ⟨?_, fun s => rfl, fun s => rfl, fun b => by cases b <;> rfl⟩
  intro env t b1 b2
  cases henv : env.primary with
  | none => exact ⟨by simp [checkAndReport, henv], by simp [checkAndReport, henv]⟩
  | some c =>
    cases hl : getLines c with
    | nil => exact ⟨by simp [checkAndReport, henv, hl], by simp [checkAndReport, henv, hl]⟩
    | cons line rest =>
      by_cases hok : (shouldReportEvent env.bootTime t).1 <;>
        exact ⟨by simp [checkAndReport, henv, hl, hok], by simp [checkAndReport, henv, hl, hok]⟩

/-- Claim C9: the primary log is read and truncated to "0" before the
throttle decision; on a rejected attempt the drain emits nothing, the
throttle anchor is unchanged, and the primary content has already been
replaced by "0" (when the truncation succeeded) -- and a later drain over
the cleared "0" content can never emit a session record from it. -/
theorem c9_clear_precedes_throttle (env : DrainEnv) (t : Int)
    (c line : String) (rest : List String)
    (h1 : env.primary = some c) (h2 : getLines c = line :: rest)
    (h3 : (shouldReportEvent env.bootTime t).1 = false) :
    ((checkAndReport env t).events = [] ∧
     (checkAndReport env t).primaryAfter =
       some (if env.primaryClearOk then "0" else c) ∧
     (checkAndReport env t).logEventTimeAfter = t) ∧
    (∀ (env2 : DrainEnv) (t2 : Int), env2.primary = some "0" →
      ∀ r : ChargeRecord, Event.charge r ∉ (checkAndReport env2 t2).events) := by
  constructor
  · have h4 := shouldReportEvent_false_snd env.bootTime t h3
    refine ⟨?_, ?_, ?_⟩ <;> simp [checkAndReport, h1, h2, h3, h4]
  · intro env2 t2 hp2 r
    have hl : getLines "0" = ["0"] := rfl
    have hps : parseSummary "0" = none := rfl
    have hse : ∀ wa wc pl gc, sessionEvents env2.translate "0" wa wc pl gc = [] := by
      intro wa wc pl gc
      simp [sessionEvents, ReportChargeStats, hps]
    by_cases hok : (shouldReportEvent env2.bootTime t2).1
    · simp [checkAndReport, hp2, hl, hok, hse, tierEvents, not_charge_mem_auxDrain]
    · simp [checkAndReport, hp2, hl, hok]

/-- Claim C9, witness: a cooldown-rejected drain (boot time 105, anchor
100) emits nothing. -/
theorem c9_witness : (checkAndReport envCooldownReject 100).events = [] :=
  (c9_clear_precedes_throttle envCooldownReject 100 "1,2,3, 4,5,6,7\nx"
    "1,2,3, 4,5,6,7" ["x"] rfl rfl rfl).1.1

end ChargeStatsModel
